import Mathlib

/-!
# FirstCppApp/HeyWorld.cpp

A verification development for the single translation unit of the repository,
`FirstCppApp/HeyWorld.cpp`.  Its `main` takes no parameters, inserts two string
literals into `std::cout`, each followed by `std::endl`, and returns `0`.

The process is modelled by explicit state passing.  The library operations the
source calls are modelled after the C++ standard:

* `std::cout << "..."` appends the characters of the literal to the stream,
* `std::cout << std::endl` puts one newline character and flushes the stream,
* when `main` returns, the runtime flushes `std::cout` and the value returned
  becomes the exit code.

The stream is assumed writable (no failure state of `std::cout` is modelled).
All characters of the two literals are ASCII, so characters and bytes coincide.
-/

namespace HeyWorld

/-! ## Data model -/

/-- The process as `main` can observe or change it: the command line, the
content of standard input, the characters pending in the buffer of `std::cout`,
and the bytes delivered so far to standard output and standard error. -/
structure Process where
  args : List String
  stdin : String
  coutBuf : String
  stdout : String
  stderr : String
  deriving DecidableEq, Repr

/-- A freshly started process: nothing buffered, nothing written yet. -/
def Process.start (args : List String) (stdin : String) : Process :=
  { args := args, stdin := stdin, coutBuf := "", stdout := "", stderr := "" }

/-- What the calling environment observes once the process has ended. -/
structure Outcome where
  exitCode : Int
  stdout : String
  stderr : String
  deriving DecidableEq, Repr

/-- The newline character that `std::endl` puts into the stream. -/
def newline : Char := Char.ofNat 10

/-- First literal of `main` (line 15 of the source); it ends in an embedded newline. -/
def literalA : String := "The classic Hello World!\n"

/-- Second literal of `main` (line 18 of the source). -/
def literalB : String := "This is a text is separated from the upper one"

/-! ## Stream operations -/

/-- Insertion of a string literal, `std::cout << "..."`: the characters go to the stream buffer. -/
def coutStr (p : Process) (s : String) : Process :=
  { p with coutBuf := p.coutBuf ++ s }

/-- Unformatted insertion of one character, `std::cout.put(c)`. -/
def coutPut (p : Process) (c : Char) : Process :=
  { p with coutBuf := p.coutBuf.push c }

/-- Flushing, `std::cout.flush()`: the pending characters are delivered to standard output. -/
def coutFlush (p : Process) : Process :=
  { p with stdout := p.stdout ++ p.coutBuf, coutBuf := "" }

/-- Insertion of the manipulator, `std::cout << std::endl`: put a newline, then flush. -/
def endl (p : Process) : Process :=
  coutFlush (coutPut p newline)

/-! ## The program -/

/-- First output statement of `main`, source lines 15 and 16. -/
def stmt1 (p : Process) : Process :=
  endl (coutStr p literalA)

/-- Second output statement of `main`, source lines 18 and 19. -/
def stmt2 (p : Process) : Process :=
  endl (coutStr p literalB)

/-- The function `int main()` of `HeyWorld.cpp`: the value returned and the process state left. -/
def main (p : Process) : Int × Process :=
  let p1 := stmt1 p
  let p2 := stmt2 p1
  (0, p2)

/-- A whole run of the program: start the process, call `main`, flush `std::cout`
at exit and report the value returned by `main` as the exit code. -/
def run (args : List String) (stdin : String) : Outcome :=
  let r := main (Process.start args stdin)
  let p := coutFlush r.2
  { exitCode := r.1, stdout := p.stdout, stderr := p.stderr }

/-! ## Control flow of `main` as a state machine -/

/-- Control state of `main`: running in front of the statement with the given
index (0, 1: the output statements, 2: the return statement), or terminated with
the value returned. -/
inductive Control where
  | running (pc : Nat)
  | terminated (code : Int)
  deriving DecidableEq, Repr

/-- The two states of the program as the calling environment sees them. -/
inductive Phase where
  | running
  | terminated (code : Int)
  deriving DecidableEq, Repr

/-- A configuration: control state and process state. -/
structure Config where
  ctl : Control
  proc : Process
  deriving DecidableEq, Repr

/-- The phase of a configuration forgets the statement index. -/
def Config.phase (c : Config) : Phase :=
  match c.ctl with
  | .running _ => .running
  | .terminated code => .terminated code

/-- The configuration in which `main` is entered. -/
def Config.init (p : Process) : Config :=
  { ctl := .running 0, proc := p }

/-- One statement of `main`.  Past the last statement the function would flow off
its end, which for `main` means returning 0; a terminated configuration stays. -/
def step (c : Config) : Config :=
  match c.ctl with
  | .running 0 => { ctl := .running 1, proc := stmt1 c.proc }
  | .running 1 => { ctl := .running 2, proc := stmt2 c.proc }
  | .running _ => { ctl := .terminated 0, proc := c.proc }
  | .terminated _ => c

/-- Execution of at most `n` statements. -/
def exec : Nat → Config → Config
  | 0, c => c
  | n + 1, c => exec n (step c)

/-- The text that a run is expected to deliver to standard output. -/
def expectedOutput : String :=
  "The classic Hello World!\n\nThis is a text is separated from the upper one\n"

/-- Number of newline characters in a text. -/
def newlineCount (s : String) : Nat :=
  s.data.count newline

/-- The newline-terminated lines of a text: the pieces between newline characters,
without the (empty) piece after the last newline. -/
def linesOf (s : String) : List String :=
  ((s.data.splitOn newline).map String.mk).dropLast

/-! ## Auxiliary lemmas -/

/-- One output statement: the literal and a newline reach standard output, after
whatever was pending, and the buffer is left empty. -/
theorem endl_coutStr (p : Process) (s : String) :
    endl (coutStr p s) =
      { p with stdout := p.stdout ++ p.coutBuf ++ s ++ String.singleton newline, coutBuf := "" } := by
  cases p
  simp only [endl, coutFlush, coutPut, coutStr, Process.mk.injEq, and_true, true_and]
  apply String.ext
  simp [String.data_append, String.data_push, String.singleton]

/-- The two literals, each followed by a newline, spell the expected text. -/
theorem literal_concat :
    literalA ++ String.singleton newline ++ literalB ++ String.singleton newline = expectedOutput := by
  decide

/-- The whole effect of `main` on a process state. -/
theorem main_eq (p : Process) :
    main p = (0, { p with stdout := p.stdout ++ p.coutBuf ++ expectedOutput, coutBuf := "" }) := by
  cases p
  simp only [main, stmt1, stmt2, endl_coutStr, Prod.mk.injEq, Process.mk.injEq, and_true, true_and]
  rw [← literal_concat]
  apply String.ext
  simp [String.data_append]

/-- The outcome of a run, whatever its inputs. -/
theorem run_eq (args : List String) (stdin : String) :
    run args stdin = { exitCode := 0, stdout := expectedOutput, stderr := "" } := by
  simp only [run, main_eq, coutFlush, Process.start, Outcome.mk.injEq, true_and, and_true]
  decide

/-- A terminated configuration is never left. -/
theorem exec_terminated (n : Nat) (code : Int) (p : Process) :
    exec n { ctl := .terminated code, proc := p } = { ctl := .terminated code, proc := p } := by
  induction n with
  | zero => rfl
  | succ k ih => simpa [exec, step] using ih

/-- Executing `m + n` statements is executing `m` and then `n`. -/
theorem exec_add (m n : Nat) (c : Config) : exec (m + n) c = exec n (exec m c) := by
  induction m generalizing c with
  | zero => simp [exec]
  | succ k ih => rw [Nat.succ_add]; simpa [exec] using ih (step c)

/-- Three statements take `main` from its entry to termination with 0. -/
theorem exec_three (p : Process) :
    exec 3 (Config.init p) = { ctl := .terminated 0, proc := stmt2 (stmt1 p) } := by
  rfl

/-! ## The claims -/

/-- C1: for every command line and every content of standard input, the bytes a
run delivers to standard output are exactly
`"The classic Hello World!\n\nThis is a text is separated from the upper one\n"`,
that is Literal A, one newline, Literal B, one newline, with nothing before,
between or after; `main` itself appends exactly this text to whatever the stream
held when it was entered and leaves nothing pending in the buffer. -/
theorem main_stdout_exact (args : List String) (stdin : String) (p : Process) :
    (run args stdin).stdout
        = "The classic Hello World!\n\nThis is a text is separated from the upper one\n"
      ∧ (run args stdin).stdout
        = literalA ++ String.singleton newline ++ literalB ++ String.singleton newline
      ∧ (main p).2.stdout = p.stdout ++ p.coutBuf ++ expectedOutput
      ∧ (main p).2.coutBuf = "" := by
  refine ⟨?_, ?_, ?_, ?_⟩
  · rw [run_eq]; rfl
  · rw [run_eq, literal_concat]
  · rw [main_eq]
  · rw [main_eq]

/-- C2: for every invocation the value `main` returns, and with it the exit code
of the run, is 0. -/
theorem main_returns_zero (args : List String) (stdin : String) (p : Process) :
    (main p).1 = 0 ∧ (run args stdin).exitCode = 0 := by
  constructor
  · rw [main_eq]
  · rw [run_eq]

/-- C3: standard output and exit code do not depend on the inputs: any two runs,
whatever their command lines and contents of standard input, deliver the same
bytes to standard output and end with the same exit code; in particular a run
without arguments and a run with the arguments `foo bar` agree. -/
theorem main_input_independent (args₁ args₂ : List String) (stdin₁ stdin₂ : String) :
    (run args₁ stdin₁).stdout = (run args₂ stdin₂).stdout
      ∧ (run args₁ stdin₁).exitCode = (run args₂ stdin₂).exitCode
      ∧ run [] "" = run ["foo", "bar"] "" := by
  simp only [run_eq, and_self]

/-- C4, as stated, fails: the text a run without arguments delivers to standard
output holds three newline characters and three newline-terminated lines, not two. -/
theorem main_stdout_not_two_lines :
    newlineCount (run [] "").stdout ≠ 2 ∧ (linesOf (run [] "").stdout).length ≠ 2 := by
  decide

/-- C4, amended: the text a run delivers to standard output is Literal A, one
newline, Literal B, one newline, in this order; Literal A holds one newline of
its own and Literal B none, so the text holds exactly three newline characters
and is made of three newline-terminated lines, the second one empty. -/
theorem main_stdout_three_lines (args : List String) (stdin : String) :
    (run args stdin).stdout
        = literalA ++ String.singleton newline ++ literalB ++ String.singleton newline
      ∧ newlineCount literalA = 1
      ∧ newlineCount literalB = 0
      ∧ newlineCount (run args stdin).stdout = 3
      ∧ linesOf (run args stdin).stdout
        = ["The classic Hello World!", "", "This is a text is separated from the upper one"] := by
  rw [run_eq]
  decide

/-- C5: nothing is written to standard error: `main` leaves the bytes of standard
error as they were and only appends to standard output, and a run ends with
standard error empty. -/
theorem main_stderr_untouched (args : List String) (stdin : String) (p : Process) :
    (main p).2.stderr = p.stderr
      ∧ (main p).2.stdout = p.stdout ++ (p.coutBuf ++ expectedOutput)
      ∧ (run args stdin).stderr = "" := by
  refine ⟨?_, ?_, ?_⟩
  · rw [main_eq]
  · rw [main_eq]
    apply String.ext
    simp [String.data_append]
  · rw [run_eq]

/-- C6: `main` is straight-line and always terminates: from any process state the
control states passed are statement 0, statement 1, statement 2 and then
termination with 0, after exactly three statements; the first statement writes
Literal A and a newline, the second Literal B and a newline; the phase is
"running" until the third statement has been executed and "terminated 0" from
then on; the process state reached is the one `main` returns; and the control
state after any number of statements is the same for all inputs. -/
theorem main_straight_line_terminates (p q : Process) (n : Nat) :
    (exec 0 (Config.init p)).ctl = .running 0
      ∧ exec 1 (Config.init p)
        = { ctl := .running 1,
            proc := { p with
              stdout := p.stdout ++ p.coutBuf ++ literalA ++ String.singleton newline,
              coutBuf := "" } }
      ∧ exec 2 (Config.init p)
        = { ctl := .running 2,
            proc := { p with
              stdout := p.stdout ++ p.coutBuf ++ literalA ++ String.singleton newline
                ++ literalB ++ String.singleton newline,
              coutBuf := "" } }
      ∧ exec (3 + n) (Config.init p) = { ctl := .terminated 0, proc := (main p).2 }
      ∧ (exec 0 (Config.init p)).phase = .running
      ∧ (exec 1 (Config.init p)).phase = .running
      ∧ (exec 2 (Config.init p)).phase = .running
      ∧ (exec (3 + n) (Config.init p)).phase = .terminated 0
      ∧ (exec n (Config.init p)).ctl = (exec n (Config.init q)).ctl := by
  have h1 : exec 1 (Config.init p) = { ctl := .running 1, proc := stmt1 p } := rfl
  have h2 : exec 2 (Config.init p) = { ctl := .running 2, proc := stmt2 (stmt1 p) } := rfl
  have h3 : exec (3 + n) (Config.init p) = { ctl := .terminated 0, proc := (main p).2 } := by
    rw [exec_add, exec_three, exec_terminated]
    rfl
  refine ⟨rfl, ?_, ?_, h3, rfl, ?_, ?_, ?_, ?_⟩
  · rw [h1, stmt1, endl_coutStr]
  · rw [h2, stmt2, stmt1, endl_coutStr, endl_coutStr]
    cases p
    simp only [Config.mk.injEq, Process.mk.injEq, and_true, true_and]
    apply String.ext
    simp [String.data_append]
  · rw [h1]; rfl
  · rw [h2]; rfl
  · rw [h3]; rfl
  · match n with
    | 0 => rfl
    | 1 => rfl
    | 2 => rfl
    | k + 3 =>
      have e : k + 3 = 3 + k := Nat.add_comm k 3
      rw [e, exec_add, exec_add, exec_three, exec_three, exec_terminated, exec_terminated]

end HeyWorld
